import Mathlib

/-!
Shallow embedding of the `simplecrawl` Python client library
(`src/simplecrawl/models.py`, `sync_client.py`, `async_client.py`).

JSON payloads are modelled as association lists in insertion order, the
order in which the Python code inserts keys into its `dict` payloads.
Python `None` for an `Optional[...]` parameter is `Option.none`; Python
truthiness (`x or default`, `if x:`) is modelled explicitly, since an
empty list or empty string is falsy in Python even when not `None`.
-/

namespace SimpleCrawl

/-- JSON values as sent on the wire by `requests`/`httpx` when given a
Python dict: `None` serializes to `null`, dicts keep insertion order. -/
inductive Json where
  | null : Json
  | bool : Bool → Json
  | num : Int → Json
  | str : String → Json
  | arr : List Json → Json
  | obj : List (String × Json) → Json

/-- Dictionary key lookup, i.e. Python `d["k"]` / `"k" in d` on the
association-list model of a JSON object. -/
def lookupKey (fields : List (String × Json)) (k : String) : Option Json :=
  (fields.find? (fun p => p.1 == k)).map (fun p => p.2)

/-- Python truthiness of an `Optional[List[str]]`: `None` and `[]` are falsy. -/
def truthyList (o : Option (List String)) : Bool :=
  match o with
  | none => false
  | some l => !l.isEmpty

/-- Python truthiness of an `Optional[str]`: `None` and `""` are falsy. -/
def truthyStr (o : Option String) : Bool :=
  match o with
  | none => false
  | some s => !(s == "")

/-- Python truthiness of an `Optional[Dict[str, Any]]`: `None` and `{}` are falsy. -/
def truthyDict (o : Option (List (String × Json))) : Bool :=
  match o with
  | none => false
  | some d => !d.isEmpty

/-- Python `x or default` for an `Optional[List[str]]` argument, as in
`formats or ["markdown"]`: the default applies whenever `x` is falsy. -/
def pyOrList (o : Option (List String)) (d : List String) : List String :=
  match o with
  | none => d
  | some l => if l.isEmpty then d else l

/-- `Optional[str]` serialized inside a dict value: `None` becomes JSON `null`. -/
def optStrJson (o : Option String) : Json :=
  match o with
  | none => Json.null
  | some s => Json.str s

/-- `Optional[Dict[str, Any]]` serialized inside a dict value: `None` becomes `null`. -/
def optDictJson (o : Option (List (String × Json))) : Json :=
  match o with
  | none => Json.null
  | some d => Json.obj d

/-! ## models.py -/

/-- `OutputFormat(str, Enum)` from `models.py`: the six declared members. -/
inductive OutputFormat where
  | MARKDOWN
  | HTML
  | RAW_HTML
  | LINKS
  | SCREENSHOT
  | SCREENSHOT_FULL
deriving DecidableEq

/-- The string value of each `OutputFormat` member, as written in `models.py`. -/
def OutputFormat.value : OutputFormat → String
  | .MARKDOWN => "markdown"
  | .HTML => "html"
  | .RAW_HTML => "rawHtml"
  | .LINKS => "links"
  | .SCREENSHOT => "screenshot"
  | .SCREENSHOT_FULL => "screenshot@fullPage"

/-- Validating a string against the `OutputFormat` enum (Python
`OutputFormat(s)` / pydantic enum validation): succeeds exactly on the
declared member values. -/
def OutputFormat.validate (s : String) : Option OutputFormat :=
  if s = "markdown" then some .MARKDOWN
  else if s = "html" then some .HTML
  else if s = "rawHtml" then some .RAW_HTML
  else if s = "links" then some .LINKS
  else if s = "screenshot" then some .SCREENSHOT
  else if s = "screenshot@fullPage" then some .SCREENSHOT_FULL
  else none

/-- `CrawlState(str, Enum)` from `models.py`. -/
inductive CrawlState where
  | SCRAPING
  | COMPLETED
  | FAILED
deriving DecidableEq

/-- Validating a string against `CrawlState`. -/
def CrawlState.validate (s : String) : Option CrawlState :=
  if s = "scraping" then some .SCRAPING
  else if s = "completed" then some .COMPLETED
  else if s = "failed" then some .FAILED
  else none

/-- Modelled from the spec: pydantic `HttpUrl` acceptance ("sourceURL
(valid URL, required)"); the pydantic library is outside this repository,
so URL validity is abstracted to: an `http://` or `https://` scheme
followed by a nonempty host part. -/
def isHttpUrl (s : String) : Bool :=
  ("http://".data.isPrefixOf s.data && s.data.length > 7) ||
  ("https://".data.isPrefixOf s.data && s.data.length > 8)

/-- The declared field names of the `Metadata` pydantic model. -/
def metadataFieldNames : List String :=
  ["title", "description", "language", "sourceURL", "statusCode", "error"]

/-- `Metadata` from `models.py`: declared fields plus, because of
`model_config = ConfigDict(extra="allow")`, the undeclared extra fields
the validated input carried. -/
structure Metadata where
  title : Option String
  description : Option String
  language : Option String
  sourceURL : String
  statusCode : Int
  error : Option String
  extra : List (String × Json)

/-- pydantic validation of an `Optional[str] = None` field: an absent key
or JSON `null` yields `None`, a JSON string yields the string, any other
type fails. -/
def parseOptStr (fields : List (String × Json)) (k : String) : Option (Option String) :=
  match lookupKey fields k with
  | none => some none
  | some Json.null => some none
  | some (Json.str s) => some (some s)
  | some _ => none

/-- `Metadata.model_validate`: required `sourceURL` (HttpUrl) and
`statusCode` (int), optional string fields, and `extra="allow"` keeping
every undeclared key. -/
def Metadata.model_validate (fields : List (String × Json)) : Option Metadata := do
  let title ← parseOptStr fields "title"
  let description ← parseOptStr fields "description"
  let language ← parseOptStr fields "language"
  let sourceURL ← match lookupKey fields "sourceURL" with
    | some (Json.str s) => if isHttpUrl s then some s else none
    | _ => none
  let statusCode ← match lookupKey fields "statusCode" with
    | some (Json.num n) => some n
    | _ => none
  let error ← parseOptStr fields "error"
  some { title := title, description := description, language := language,
         sourceURL := sourceURL, statusCode := statusCode, error := error,
         extra := fields.filter (fun p => !(metadataFieldNames.contains p.1)) }

/-- `ScrapeResult` from `models.py`. -/
structure ScrapeResult where
  markdown : Option String
  html : Option String
  raw_html : Option String
  links : Option (List String)
  metadata : Metadata
  llm_extraction : Option (List (String × Json))
  warning : Option String

/-- pydantic validation of an `Optional[List[str]] = None` field. -/
def parseOptStrList (fields : List (String × Json)) (k : String) :
    Option (Option (List String)) :=
  match lookupKey fields k with
  | none => some none
  | some Json.null => some none
  | some (Json.arr xs) =>
      (xs.mapM (fun j => match j with | Json.str s => some s | _ => none)).map some
  | some _ => none

/-- pydantic validation of an `Optional[Dict[str, Any]] = None` field. -/
def parseOptDict (fields : List (String × Json)) (k : String) :
    Option (Option (List (String × Json))) :=
  match lookupKey fields k with
  | none => some none
  | some Json.null => some none
  | some (Json.obj d) => some (some d)
  | some _ => none

/-- `ScrapeResult.model_validate`: optional content fields (`rawHtml` read
through its alias), required `metadata` sub-object. -/
def ScrapeResult.model_validate (fields : List (String × Json)) : Option ScrapeResult := do
  let markdown ← parseOptStr fields "markdown"
  let html ← parseOptStr fields "html"
  let raw_html ← parseOptStr fields "rawHtml"
  let links ← parseOptStrList fields "links"
  let metadata ← match lookupKey fields "metadata" with
    | some (Json.obj m) => Metadata.model_validate m
    | _ => none
  let llm_extraction ← parseOptDict fields "llm_extraction"
  let warning ← parseOptStr fields "warning"
  some { markdown := markdown, html := html, raw_html := raw_html, links := links,
         metadata := metadata, llm_extraction := llm_extraction, warning := warning }

/-- `CrawlJob` from `models.py`. -/
structure CrawlJob where
  success : Bool
  id : String
  url : String

/-- `CrawlJob.model_validate`: required `success` (bool), `id` (str),
`url` (HttpUrl). -/
def CrawlJob.model_validate (fields : List (String × Json)) : Option CrawlJob := do
  let success ← match lookupKey fields "success" with
    | some (Json.bool b) => some b
    | _ => none
  let id ← match lookupKey fields "id" with
    | some (Json.str s) => some s
    | _ => none
  let url ← match lookupKey fields "url" with
    | some (Json.str s) => if isHttpUrl s then some s else none
    | _ => none
  some { success := success, id := id, url := url }

/-- `CrawlStatus` from `models.py`. The `expiresAt` datetime is kept as
the raw timestamp string (datetime parsing happens inside pydantic,
outside this repository). -/
structure CrawlStatus where
  status : CrawlState
  total : Int
  completed : Int
  expires_at : String
  next : Option String
  data : List ScrapeResult

/-- `CrawlStatus.model_validate`: closed `status` enum, required counts,
`expiresAt` alias, optional `next` cursor, list of `ScrapeResult`. -/
def CrawlStatus.model_validate (fields : List (String × Json)) : Option CrawlStatus := do
  let status ← match lookupKey fields "status" with
    | some (Json.str s) => CrawlState.validate s
    | _ => none
  let total ← match lookupKey fields "total" with
    | some (Json.num n) => some n
    | _ => none
  let completed ← match lookupKey fields "completed" with
    | some (Json.num n) => some n
    | _ => none
  let expires_at ← match lookupKey fields "expiresAt" with
    | some (Json.str s) => some s
    | _ => none
  let next ← parseOptStr fields "next"
  let data ← match lookupKey fields "data" with
    | some (Json.arr xs) =>
        xs.mapM (fun j => match j with
          | Json.obj d => ScrapeResult.model_validate d
          | _ => none)
    | _ => none
  some { status := status, total := total, completed := completed,
         expires_at := expires_at, next := next, data := data }

/-- `MapResult` from `models.py`. -/
structure MapResult where
  success : Bool
  links : List String

/-- `MapResult.model_validate`: required `success` (bool) and `links`
(list of str). -/
def MapResult.model_validate (fields : List (String × Json)) : Option MapResult := do
  let success ← match lookupKey fields "success" with
    | some (Json.bool b) => some b
    | _ => none
  let links ← match lookupKey fields "links" with
    | some (Json.arr xs) =>
        xs.mapM (fun j => match j with | Json.str s => some s | _ => none)
    | _ => none
  some { success := success, links := links }

/-! ## sync_client.py: FirecrawlClient -/

/-- HTTP methods used by the clients. -/
inductive Method where
  | POST
  | GET
  | DELETE
deriving DecidableEq

namespace FirecrawlClient

/-- `FirecrawlClient.__init__`: fails on an empty base URL, otherwise
strips trailing slashes (`base_url.rstrip("/")`). -/
def mkBaseUrl (base_url : String) : Option String :=
  if base_url = "" then none
  else some (String.mk ((base_url.data.reverse.dropWhile (fun c => c = '/')).reverse))

/-- The JSON payload built by `FirecrawlClient.scrape` (sync_client.py
lines 89-107), in dict insertion order. -/
def scrapePayload (url : String) (formats : Option (List String))
    (include_tags : Option (List String)) (exclude_tags : Option (List String))
    (headers : Option (List (String × Json))) (wait_for : Int) (timeout : Int)
    (extract_schema : Option (List (String × Json)))
    (extract_system_prompt : Option String) (extract_prompt : Option String) :
    List (String × Json) :=
  [("url", Json.str url),
   ("formats", Json.arr ((pyOrList formats ["markdown"]).map Json.str)),
   ("waitFor", Json.num wait_for),
   ("timeout", Json.num timeout)] ++
  (match include_tags with
   | some l => [("includeTags", Json.arr (l.map Json.str))]
   | none => []) ++
  (match exclude_tags with
   | some l => [("excludeTags", Json.arr (l.map Json.str))]
   | none => []) ++
  (match headers with
   | some h => [("headers", Json.obj h)]
   | none => []) ++
  (if truthyDict extract_schema || truthyStr extract_system_prompt ||
      truthyStr extract_prompt then
     [("extract", Json.obj
        [("schema", optDictJson extract_schema),
         ("systemPrompt", optStrJson extract_system_prompt),
         ("prompt", optStrJson extract_prompt)])]
   else [])

/-- Request URL of `FirecrawlClient.scrape`. -/
def scrapeUrl (base : String) : String := base ++ "/scrape"

/-- HTTP method of `FirecrawlClient.scrape`. -/
def scrapeMethod : Method := Method.POST

/-- Response handling of `FirecrawlClient.scrape`:
`ScrapeResult.model_validate(data["data"])`. -/
def scrapeParse (body : Json) : Option ScrapeResult :=
  match body with
  | Json.obj fields =>
      match lookupKey fields "data" with
      | some (Json.obj d) => ScrapeResult.model_validate d
      | _ => none
  | _ => none

/-- The nested `scrapeOptions` dict built by `FirecrawlClient.crawl`
(created at lines 160-163, extended in place at lines 172-177). -/
def crawlScrapeOptions (scrape_formats : Option (List String))
    (scrape_headers : Option (List (String × Json)))
    (scrape_include_tags : Option (List String))
    (scrape_exclude_tags : Option (List String)) (scrape_wait_for : Int) :
    List (String × Json) :=
  [("formats", Json.arr ((pyOrList scrape_formats ["markdown"]).map Json.str)),
   ("waitFor", Json.num scrape_wait_for)] ++
  (match scrape_headers with
   | some h => [("headers", Json.obj h)]
   | none => []) ++
  (match scrape_include_tags with
   | some l => [("includeTags", Json.arr (l.map Json.str))]
   | none => []) ++
  (match scrape_exclude_tags with
   | some l => [("excludeTags", Json.arr (l.map Json.str))]
   | none => [])

/-- The JSON payload built by `FirecrawlClient.crawl` (sync_client.py
lines 153-177). -/
def crawlPayload (url : String) (exclude_paths : Option (List String))
    (include_paths : Option (List String)) (max_depth : Int)
    (ignore_sitemap : Bool) (limit : Int) (allow_backward_links : Bool)
    (allow_external_links : Bool) (webhook : Option String)
    (scrape_formats : Option (List String))
    (scrape_headers : Option (List (String × Json)))
    (scrape_include_tags : Option (List String))
    (scrape_exclude_tags : Option (List String)) (scrape_wait_for : Int) :
    List (String × Json) :=
  [("url", Json.str url),
   ("maxDepth", Json.num max_depth),
   ("ignoreSitemap", Json.bool ignore_sitemap),
   ("limit", Json.num limit),
   ("allowBackwardLinks", Json.bool allow_backward_links),
   ("allowExternalLinks", Json.bool allow_external_links),
   ("scrapeOptions", Json.obj (crawlScrapeOptions scrape_formats scrape_headers
      scrape_include_tags scrape_exclude_tags scrape_wait_for))] ++
  (match exclude_paths with
   | some l => [("excludePaths", Json.arr (l.map Json.str))]
   | none => []) ++
  (match include_paths with
   | some l => [("includePaths", Json.arr (l.map Json.str))]
   | none => []) ++
  (match webhook with
   | some w => [("webhook", Json.str w)]
   | none => [])

/-- Request URL of `FirecrawlClient.crawl`. -/
def crawlUrl (base : String) : String := base ++ "/crawl"

/-- HTTP method of `FirecrawlClient.crawl`. -/
def crawlMethod : Method := Method.POST

/-- Response handling of `FirecrawlClient.crawl`:
`CrawlJob.model_validate(data)`. -/
def crawlParse (body : Json) : Option CrawlJob :=
  match body with
  | Json.obj fields => CrawlJob.model_validate fields
  | _ => none

/-- Request URL of `FirecrawlClient.get_crawl_status`. -/
def crawlStatusUrl (base : String) (job_id : String) : String :=
  base ++ "/crawl/" ++ job_id

/-- HTTP method of `FirecrawlClient.get_crawl_status`. -/
def crawlStatusMethod : Method := Method.GET

/-- Response handling of `FirecrawlClient.get_crawl_status`. -/
def crawlStatusParse (body : Json) : Option CrawlStatus :=
  match body with
  | Json.obj fields => CrawlStatus.model_validate fields
  | _ => none

/-- Request URL of `FirecrawlClient.cancel_crawl`. -/
def cancelCrawlUrl (base : String) (job_id : String) : String :=
  base ++ "/crawl/" ++ job_id

/-- HTTP method of `FirecrawlClient.cancel_crawl`. -/
def cancelCrawlMethod : Method := Method.DELETE

/-- Response handling of `FirecrawlClient.cancel_crawl`:
`data.get("success", False)` on the decoded JSON object. -/
def cancelCrawlParse (fields : List (String × Json)) : Json :=
  (lookupKey fields "success").getD (Json.bool false)

/-- The JSON payload built by `FirecrawlClient.map` (sync_client.py
lines 235-243). -/
def mapPayload (url : String) (search : Option String) (ignore_sitemap : Bool)
    (include_subdomains : Bool) (limit : Int) : List (String × Json) :=
  [("url", Json.str url),
   ("ignoreSitemap", Json.bool ignore_sitemap),
   ("includeSubdomains", Json.bool include_subdomains),
   ("limit", Json.num limit)] ++
  (match search with
   | some s => [("search", Json.str s)]
   | none => [])

/-- Request URL of `FirecrawlClient.map`. -/
def mapUrl (base : String) : String := base ++ "/map"

/-- HTTP method of `FirecrawlClient.map`. -/
def mapMethod : Method := Method.POST

/-- Response handling of `FirecrawlClient.map`:
`MapResult.model_validate(data)`. -/
def mapParse (body : Json) : Option MapResult :=
  match body with
  | Json.obj fields => MapResult.model_validate fields
  | _ => none

end FirecrawlClient

/-! ## async_client.py: AsyncFirecrawlClient -/

namespace AsyncFirecrawlClient

/-- `AsyncFirecrawlClient.__init__`: fails on an empty base URL, otherwise
strips trailing slashes (`base_url.rstrip("/")`). -/
def mkBaseUrl (base_url : String) : Option String :=
  if base_url = "" then none
  else some (String.mk ((base_url.data.reverse.dropWhile (fun c => c = '/')).reverse))

/-- The JSON payload built by `AsyncFirecrawlClient.scrape`
(async_client.py lines 53-70), in dict insertion order. -/
def scrapePayload (url : String) (formats : Option (List String))
    (include_tags : Option (List String)) (exclude_tags : Option (List String))
    (headers : Option (List (String × Json))) (wait_for : Int) (timeout : Int)
    (extract_schema : Option (List (String × Json)))
    (extract_system_prompt : Option String) (extract_prompt : Option String) :
    List (String × Json) :=
  [("url", Json.str url),
   ("formats", Json.arr ((pyOrList formats ["markdown"]).map Json.str)),
   ("waitFor", Json.num wait_for),
   ("timeout", Json.num timeout)] ++
  (match include_tags with
   | some l => [("includeTags", Json.arr (l.map Json.str))]
   | none => []) ++
  (match exclude_tags with
   | some l => [("excludeTags", Json.arr (l.map Json.str))]
   | none => []) ++
  (match headers with
   | some h => [("headers", Json.obj h)]
   | none => []) ++
  (if truthyDict extract_schema || truthyStr extract_system_prompt ||
      truthyStr extract_prompt then
     [("extract", Json.obj
        [("schema", optDictJson extract_schema),
         ("systemPrompt", optStrJson extract_system_prompt),
         ("prompt", optStrJson extract_prompt)])]
   else [])

/-- Request URL of `AsyncFirecrawlClient.scrape`. -/
def scrapeUrl (base : String) : String := base ++ "/scrape"

/-- HTTP method of `AsyncFirecrawlClient.scrape`. -/
def scrapeMethod : Method := Method.POST

/-- Response handling of `AsyncFirecrawlClient.scrape`:
`ScrapeResult.model_validate(data["data"])`. -/
def scrapeParse (body : Json) : Option ScrapeResult :=
  match body with
  | Json.obj fields =>
      match lookupKey fields "data" with
      | some (Json.obj d) => ScrapeResult.model_validate d
      | _ => none
  | _ => none

/-- The nested `scrapeOptions` dict built by `AsyncFirecrawlClient.crawl`
(created at lines 104-107, extended in place at lines 116-121). -/
def crawlScrapeOptions (scrape_formats : Option (List String))
    (scrape_headers : Option (List (String × Json)))
    (scrape_include_tags : Option (List String))
    (scrape_exclude_tags : Option (List String)) (scrape_wait_for : Int) :
    List (String × Json) :=
  [("formats", Json.arr ((pyOrList scrape_formats ["markdown"]).map Json.str)),
   ("waitFor", Json.num scrape_wait_for)] ++
  (match scrape_headers with
   | some h => [("headers", Json.obj h)]
   | none => []) ++
  (match scrape_include_tags with
   | some l => [("includeTags", Json.arr (l.map Json.str))]
   | none => []) ++
  (match scrape_exclude_tags with
   | some l => [("excludeTags", Json.arr (l.map Json.str))]
   | none => [])

/-- The JSON payload built by `AsyncFirecrawlClient.crawl`
(async_client.py lines 97-121). -/
def crawlPayload (url : String) (exclude_paths : Option (List String))
    (include_paths : Option (List String)) (max_depth : Int)
    (ignore_sitemap : Bool) (limit : Int) (allow_backward_links : Bool)
    (allow_external_links : Bool) (webhook : Option String)
    (scrape_formats : Option (List String))
    (scrape_headers : Option (List (String × Json)))
    (scrape_include_tags : Option (List String))
    (scrape_exclude_tags : Option (List String)) (scrape_wait_for : Int) :
    List (String × Json) :=
  [("url", Json.str url),
   ("maxDepth", Json.num max_depth),
   ("ignoreSitemap", Json.bool ignore_sitemap),
   ("limit", Json.num limit),
   ("allowBackwardLinks", Json.bool allow_backward_links),
   ("allowExternalLinks", Json.bool allow_external_links),
   ("scrapeOptions", Json.obj (crawlScrapeOptions scrape_formats scrape_headers
      scrape_include_tags scrape_exclude_tags scrape_wait_for))] ++
  (match exclude_paths with
   | some l => [("excludePaths", Json.arr (l.map Json.str))]
   | none => []) ++
  (match include_paths with
   | some l => [("includePaths", Json.arr (l.map Json.str))]
   | none => []) ++
  (match webhook with
   | some w => [("webhook", Json.str w)]
   | none => [])

/-- Request URL of `AsyncFirecrawlClient.crawl`. -/
def crawlUrl (base : String) : String := base ++ "/crawl"

/-- HTTP method of `AsyncFirecrawlClient.crawl`. -/
def crawlMethod : Method := Method.POST

/-- Response handling of `AsyncFirecrawlClient.crawl`:
`CrawlJob.model_validate(data)`. -/
def crawlParse (body : Json) : Option CrawlJob :=
  match body with
  | Json.obj fields => CrawlJob.model_validate fields
  | _ => none

/-- Request URL of `AsyncFirecrawlClient.get_crawl_status`. -/
def crawlStatusUrl (base : String) (job_id : String) : String :=
  base ++ "/crawl/" ++ job_id

/-- HTTP method of `AsyncFirecrawlClient.get_crawl_status`. -/
def crawlStatusMethod : Method := Method.GET

/-- Response handling of `AsyncFirecrawlClient.get_crawl_status`. -/
def crawlStatusParse (body : Json) : Option CrawlStatus :=
  match body with
  | Json.obj fields => CrawlStatus.model_validate fields
  | _ => none

/-- Request URL of `AsyncFirecrawlClient.cancel_crawl`. -/
def cancelCrawlUrl (base : String) (job_id : String) : String :=
  base ++ "/crawl/" ++ job_id

/-- HTTP method of `AsyncFirecrawlClient.cancel_crawl`. -/
def cancelCrawlMethod : Method := Method.DELETE

/-- Response handling of `AsyncFirecrawlClient.cancel_crawl`:
`data.get("success", False)` on the decoded JSON object. -/
def cancelCrawlParse (fields : List (String × Json)) : Json :=
  (lookupKey fields "success").getD (Json.bool false)

/-- The JSON payload built by `AsyncFirecrawlClient.map`
(async_client.py lines 157-165). -/
def mapPayload (url : String) (search : Option String) (ignore_sitemap : Bool)
    (include_subdomains : Bool) (limit : Int) : List (String × Json) :=
  [("url", Json.str url),
   ("ignoreSitemap", Json.bool ignore_sitemap),
   ("includeSubdomains", Json.bool include_subdomains),
   ("limit", Json.num limit)] ++
  (match search with
   | some s => [("search", Json.str s)]
   | none => [])

/-- Request URL of `AsyncFirecrawlClient.map`. -/
def mapUrl (base : String) : String := base ++ "/map"

/-- HTTP method of `AsyncFirecrawlClient.map`. -/
def mapMethod : Method := Method.POST

/-- Response handling of `AsyncFirecrawlClient.map`:
`MapResult.model_validate(data)`. -/
def mapParse (body : Json) : Option MapResult :=
  match body with
  | Json.obj fields => MapResult.model_validate fields
  | _ => none

end AsyncFirecrawlClient

/-! ## Helper lemmas -/

/-- Stripping trailing slashes at construction absorbs a trailing slash
appended to a nonempty base URL. -/
theorem mkBaseUrl_append_slash (b : String) (h : b ≠ "") :
    FirecrawlClient.mkBaseUrl (b ++ "/") = FirecrawlClient.mkBaseUrl b := by
  have hne : b ++ "/" ≠ "" := by
    cases b with
    | mk l =>
        intro hc
        simp [String.instAppend, String.append, String.ext_iff] at hc
  unfold FirecrawlClient.mkBaseUrl
  rw [if_neg hne, if_neg h]
  cases b with
  | mk l => simp [String.instAppend, String.append]

/-- The two constructors normalize the base URL identically. -/
theorem asyncMkBaseUrl_eq (s : String) :
    AsyncFirecrawlClient.mkBaseUrl s = FirecrawlClient.mkBaseUrl s := rfl

/-! ## Claim theorems -/

/-- C1 (counterexample): the claim fails inside the `extract` sub-object:
calling `scrape` with only `extract_prompt` set sends `"schema": null` and
`"systemPrompt": null` for the two unset optional parameters, so an unset
optional parameter does appear as a key with a null value. -/
theorem unset_extract_params_appear_null :
    lookupKey (FirecrawlClient.scrapePayload "https://example.com" none none none none 0 30000
        none none (some "Summarize the page")) "extract" =
      some (Json.obj [("schema", Json.null), ("systemPrompt", Json.null),
                      ("prompt", Json.str "Summarize the page")]) := rfl

/-- C1 (amended): for both clients and every choice of arguments, every
omitted top-level optional parameter of `scrape`, `crawl` and `map` is
absent from the outgoing payload (including the nested `scrapeOptions`
overrides of `crawl`), and the `extract` key is absent when none of the
three extract parameters is set; the one exception is that when the
`extract` sub-object is emitted, it always carries all three keys
`schema`, `systemPrompt`, `prompt`, with JSON null for the unset ones. -/
theorem omitted_optional_params_absent :
    (∀ (url : String) (fmts it et : Option (List String))
       (hd : Option (List (String × Json))) (wf tmo : Int)
       (es : Option (List (String × Json))) (esp ep : Option String),
       (it = none → lookupKey
          (FirecrawlClient.scrapePayload url fmts it et hd wf tmo es esp ep)
          "includeTags" = none) ∧
       (et = none → lookupKey
          (FirecrawlClient.scrapePayload url fmts it et hd wf tmo es esp ep)
          "excludeTags" = none) ∧
       (hd = none → lookupKey
          (FirecrawlClient.scrapePayload url fmts it et hd wf tmo es esp ep)
          "headers" = none) ∧
       (es = none → esp = none → ep = none → lookupKey
          (FirecrawlClient.scrapePayload url fmts it et hd wf tmo es esp ep)
          "extract" = none) ∧
       ((truthyDict es || truthyStr esp || truthyStr ep) = true → lookupKey
          (FirecrawlClient.scrapePayload url fmts it et hd wf tmo es esp ep)
          "extract" = some (Json.obj
            [("schema", optDictJson es), ("systemPrompt", optStrJson esp),
             ("prompt", optStrJson ep)]))) ∧
    (∀ (url : String) (fmts it et : Option (List String))
       (hd : Option (List (String × Json))) (wf tmo : Int)
       (es : Option (List (String × Json))) (esp ep : Option String),
       (it = none → lookupKey
          (AsyncFirecrawlClient.scrapePayload url fmts it et hd wf tmo es esp ep)
          "includeTags" = none) ∧
       (et = none → lookupKey
          (AsyncFirecrawlClient.scrapePayload url fmts it et hd wf tmo es esp ep)
          "excludeTags" = none) ∧
       (hd = none → lookupKey
          (AsyncFirecrawlClient.scrapePayload url fmts it et hd wf tmo es esp ep)
          "headers" = none) ∧
       (es = none → esp = none → ep = none → lookupKey
          (AsyncFirecrawlClient.scrapePayload url fmts it et hd wf tmo es esp ep)
          "extract" = none) ∧
       ((truthyDict es || truthyStr esp || truthyStr ep) = true → lookupKey
          (AsyncFirecrawlClient.scrapePayload url fmts it et hd wf tmo es esp ep)
          "extract" = some (Json.obj
            [("schema", optDictJson es), ("systemPrompt", optStrJson esp),
             ("prompt", optStrJson ep)]))) ∧
    (∀ (url : String) (xp ip : Option (List String)) (md : Int) (igs : Bool)
       (lim : Int) (abl ael : Bool) (wh : Option String)
       (sf : Option (List String)) (sh : Option (List (String × Json)))
       (si se : Option (List String)) (swf : Int),
       (xp = none → lookupKey
          (FirecrawlClient.crawlPayload url xp ip md igs lim abl ael wh sf sh si se swf)
          "excludePaths" = none) ∧
       (ip = none → lookupKey
          (FirecrawlClient.crawlPayload url xp ip md igs lim abl ael wh sf sh si se swf)
          "includePaths" = none) ∧
       (wh = none → lookupKey
          (FirecrawlClient.crawlPayload url xp ip md igs lim abl ael wh sf sh si se swf)
          "webhook" = none) ∧
       (sh = none → lookupKey
          (FirecrawlClient.crawlScrapeOptions sf sh si se swf) "headers" = none) ∧
       (si = none → lookupKey
          (FirecrawlClient.crawlScrapeOptions sf sh si se swf) "includeTags" = none) ∧
       (se = none → lookupKey
          (FirecrawlClient.crawlScrapeOptions sf sh si se swf) "excludeTags" = none)) ∧
    (∀ (url : String) (xp ip : Option (List String)) (md : Int) (igs : Bool)
       (lim : Int) (abl ael : Bool) (wh : Option String)
       (sf : Option (List String)) (sh : Option (List (String × Json)))
       (si se : Option (List String)) (swf : Int),
       (xp = none → lookupKey
          (AsyncFirecrawlClient.crawlPayload url xp ip md igs lim abl ael wh sf sh si se swf)
          "excludePaths" = none) ∧
       (ip = none → lookupKey
          (AsyncFirecrawlClient.crawlPayload url xp ip md igs lim abl ael wh sf sh si se swf)
          "includePaths" = none) ∧
       (wh = none → lookupKey
          (AsyncFirecrawlClient.crawlPayload url xp ip md igs lim abl ael wh sf sh si se swf)
          "webhook" = none) ∧
       (sh = none → lookupKey
          (AsyncFirecrawlClient.crawlScrapeOptions sf sh si se swf) "headers" = none) ∧
       (si = none → lookupKey
          (AsyncFirecrawlClient.crawlScrapeOptions sf sh si se swf) "includeTags" = none) ∧
       (se = none → lookupKey
          (AsyncFirecrawlClient.crawlScrapeOptions sf sh si se swf) "excludeTags" = none)) ∧
    (∀ (url : String) (sr : Option String) (igs isd : Bool) (lim : Int),
       sr = none → lookupKey (FirecrawlClient.mapPayload url sr igs isd lim)
         "search" = none) ∧
    (∀ (url : String) (sr : Option String) (igs isd : Bool) (lim : Int),
       sr = none → lookupKey (AsyncFirecrawlClient.mapPayload url sr igs isd lim)
         "search" = none) := by
  refine ⟨?_, ?_, ?_, ?_, ?_, ?_⟩
  · intro url fmts it et hd wf tmo es esp ep
    refine ⟨?_, ?_, ?_, ?_, ?_⟩
    · rintro rfl
      cases et <;> cases hd <;> simp only [FirecrawlClient.scrapePayload] <;> split <;> rfl
    · rintro rfl
      cases it <;> cases hd <;> simp only [FirecrawlClient.scrapePayload] <;> split <;> rfl
    · rintro rfl
      cases it <;> cases et <;> simp only [FirecrawlClient.scrapePayload] <;> split <;> rfl
    · rintro rfl rfl rfl
      cases it <;> cases et <;> cases hd <;> rfl
    · intro hc
      cases it <;> cases et <;> cases hd <;>
        simp only [FirecrawlClient.scrapePayload, hc] <;> rfl
  · intro url fmts it et hd wf tmo es esp ep
    refine ⟨?_, ?_, ?_, ?_, ?_⟩
    · rintro rfl
      cases et <;> cases hd <;> simp only [AsyncFirecrawlClient.scrapePayload] <;> split <;> rfl
    · rintro rfl
      cases it <;> cases hd <;> simp only [AsyncFirecrawlClient.scrapePayload] <;> split <;> rfl
    · rintro rfl
      cases it <;> cases et <;> simp only [AsyncFirecrawlClient.scrapePayload] <;> split <;> rfl
    · rintro rfl rfl rfl
      cases it <;> cases et <;> cases hd <;> rfl
    · intro hc
      cases it <;> cases et <;> cases hd <;>
        simp only [AsyncFirecrawlClient.scrapePayload, hc] <;> rfl
  · intro url xp ip md igs lim abl ael wh sf sh si se swf
    refine ⟨?_, ?_, ?_, ?_, ?_, ?_⟩
    · rintro rfl; cases ip <;> cases wh <;> rfl
    · rintro rfl; cases xp <;> cases wh <;> rfl
    · rintro rfl; cases xp <;> cases ip <;> rfl
    · rintro rfl; cases si <;> cases se <;> rfl
    · rintro rfl; cases sh <;> cases se <;> rfl
    · rintro rfl; cases sh <;> cases si <;> rfl
  · intro url xp ip md igs lim abl ael wh sf sh si se swf
    refine ⟨?_, ?_, ?_, ?_, ?_, ?_⟩
    · rintro rfl; cases ip <;> cases wh <;> rfl
    · rintro rfl; cases xp <;> cases wh <;> rfl
    · rintro rfl; cases xp <;> cases ip <;> rfl
    · rintro rfl; cases si <;> cases se <;> rfl
    · rintro rfl; cases sh <;> cases se <;> rfl
    · rintro rfl; cases sh <;> cases si <;> rfl
  · intro url sr igs isd lim
    rintro rfl; rfl
  · intro url sr igs isd lim
    rintro rfl; rfl

/-- C1 (witness): the amended theorem applied at concrete inputs. -/
theorem omitted_optional_params_absent_witness :
    lookupKey (FirecrawlClient.scrapePayload "https://example.com" none none none none 0 30000
        none none none) "includeTags" = none ∧
    lookupKey (FirecrawlClient.crawlPayload "https://example.com" none none 2 true 10 false false
        none none none none none 123) "webhook" = none ∧
    lookupKey (FirecrawlClient.mapPayload "https://example.com" none true false 5000)
        "search" = none :=
  ⟨(omitted_optional_params_absent.1 "https://example.com" none none none none 0 30000
      none none none).1 rfl,
   (omitted_optional_params_absent.2.2.1 "https://example.com" none none 2 true 10 false false
      none none none none none 123).2.2.1 rfl,
   omitted_optional_params_absent.2.2.2.2.1 "https://example.com" none true false 5000 rfl⟩

/-- C2: `scrape("https://example.com")` with default arguments builds
exactly the body `{"url": ..., "formats": ["markdown"], "waitFor": 0,
"timeout": 30000}`, and parsing the given server response yields a
`ScrapeResult` whose `markdown` field is `"# Hi"`. -/
theorem scrape_default_payload_and_markdown :
    FirecrawlClient.scrapePayload "https://example.com" none none none none 0 30000
        none none none =
      [("url", Json.str "https://example.com"),
       ("formats", Json.arr [Json.str "markdown"]),
       ("waitFor", Json.num 0),
       ("timeout", Json.num 30000)] ∧
    (FirecrawlClient.scrapeParse (Json.obj
       [("data", Json.obj
          [("markdown", Json.str "# Hi"),
           ("metadata", Json.obj
             [("sourceURL", Json.str "https://example.com"),
              ("statusCode", Json.num 200)])])])).map (fun r => r.markdown) =
      some (some "# Hi") :=
  ⟨rfl, rfl⟩

/-- C3 (counterexample): `"screenshot-full-page"` is not a member of the
`OutputFormat` enumeration; the sixth member value in the code is
`"screenshot@fullPage"`, so validating the claimed string fails. -/
theorem screenshot_full_page_dash_not_member :
    OutputFormat.validate "screenshot-full-page" = none := rfl

/-- C3 (amended): `OutputFormat` is exactly the closed set of six string
values markdown, html, rawHtml, links, screenshot, screenshot@fullPage:
each member value validates to its member, and validation succeeds on a
string if and only if it is one of those six values. -/
theorem outputFormat_closed_set :
    (∀ f : OutputFormat, OutputFormat.validate (OutputFormat.value f) = some f) ∧
    (∀ s : String, (OutputFormat.validate s).isSome =
      (s == "markdown" || s == "html" || s == "rawHtml" || s == "links" ||
       s == "screenshot" || s == "screenshot@fullPage")) := by
  constructor
  · intro f; cases f <;> rfl
  · intro s
    unfold OutputFormat.validate
    split_ifs <;> simp_all

/-- C4: for every operation and every choice of arguments, the
synchronous and asynchronous clients build identical payloads, use
identical request URLs and HTTP methods, normalize the base URL
identically, and parse identical server responses to identical typed
results. -/
theorem sync_async_equivalent :
    FirecrawlClient.scrapePayload = AsyncFirecrawlClient.scrapePayload ∧
    FirecrawlClient.crawlScrapeOptions = AsyncFirecrawlClient.crawlScrapeOptions ∧
    FirecrawlClient.crawlPayload = AsyncFirecrawlClient.crawlPayload ∧
    FirecrawlClient.mapPayload = AsyncFirecrawlClient.mapPayload ∧
    FirecrawlClient.mkBaseUrl = AsyncFirecrawlClient.mkBaseUrl ∧
    FirecrawlClient.scrapeUrl = AsyncFirecrawlClient.scrapeUrl ∧
    FirecrawlClient.crawlUrl = AsyncFirecrawlClient.crawlUrl ∧
    FirecrawlClient.crawlStatusUrl = AsyncFirecrawlClient.crawlStatusUrl ∧
    FirecrawlClient.cancelCrawlUrl = AsyncFirecrawlClient.cancelCrawlUrl ∧
    FirecrawlClient.mapUrl = AsyncFirecrawlClient.mapUrl ∧
    FirecrawlClient.scrapeMethod = AsyncFirecrawlClient.scrapeMethod ∧
    FirecrawlClient.crawlMethod = AsyncFirecrawlClient.crawlMethod ∧
    FirecrawlClient.crawlStatusMethod = AsyncFirecrawlClient.crawlStatusMethod ∧
    FirecrawlClient.cancelCrawlMethod = AsyncFirecrawlClient.cancelCrawlMethod ∧
    FirecrawlClient.mapMethod = AsyncFirecrawlClient.mapMethod ∧
    FirecrawlClient.scrapeParse = AsyncFirecrawlClient.scrapeParse ∧
    FirecrawlClient.crawlParse = AsyncFirecrawlClient.crawlParse ∧
    FirecrawlClient.crawlStatusParse = AsyncFirecrawlClient.crawlStatusParse ∧
    FirecrawlClient.cancelCrawlParse = AsyncFirecrawlClient.cancelCrawlParse ∧
    FirecrawlClient.mapParse = AsyncFirecrawlClient.mapParse :=
  ⟨rfl, rfl, rfl, rfl, rfl, rfl, rfl, rfl, rfl, rfl,
   rfl, rfl, rfl, rfl, rfl, rfl, rfl, rfl, rfl, rfl⟩

/-- C5 (counterexample): `extract_prompt` provided as the empty string is
falsy in Python, so the `extract` key is omitted even though one of the
three extract parameters was provided by the caller. -/
theorem extract_dropped_for_falsy_prompt :
    lookupKey (FirecrawlClient.scrapePayload "https://example.com" none none none none 0 30000
        none none (some "")) "extract" = none ∧
    (some "" : Option String) ≠ none :=
  ⟨rfl, fun hc => Option.noConfusion hc⟩

/-- C5 (amended): for both clients, the `extract` sub-object is included
in the scrape payload if and only if at least one of `extract_schema`,
`extract_system_prompt`, `extract_prompt` is provided with a truthy value
(non-`None` and non-empty); in particular the payload has no `extract`
key when none of the three is provided. -/
theorem extract_included_iff_truthy :
    ∀ (url : String) (fmts it et : Option (List String))
      (hd : Option (List (String × Json))) (wf tmo : Int)
      (es : Option (List (String × Json))) (esp ep : Option String),
      ((lookupKey (FirecrawlClient.scrapePayload url fmts it et hd wf tmo es esp ep)
          "extract").isSome = (truthyDict es || truthyStr esp || truthyStr ep)) ∧
      ((lookupKey (AsyncFirecrawlClient.scrapePayload url fmts it et hd wf tmo es esp ep)
          "extract").isSome = (truthyDict es || truthyStr esp || truthyStr ep)) := by
  intro url fmts it et hd wf tmo es esp ep
  constructor <;>
    (cases hc : (truthyDict es || truthyStr esp || truthyStr ep) <;>
      cases it <;> cases et <;> cases hd <;>
        simp only [FirecrawlClient.scrapePayload, AsyncFirecrawlClient.scrapePayload, hc] <;>
          rfl)

/-- C6: for both clients, every crawl payload carries a nested
`scrapeOptions` object with the `formats` default and `waitFor`;
`scrapeOptions` gains `headers`, `includeTags`, `excludeTags` keys exactly
when the corresponding argument is supplied; and in particular
`scrape_headers={"X-A":"1"}` lands at `scrapeOptions.headers`. -/
theorem crawl_scrapeOptions_payload :
    (∀ (url : String) (xp ip : Option (List String)) (md : Int) (igs : Bool)
       (lim : Int) (abl ael : Bool) (wh : Option String)
       (sf : Option (List String)) (sh : Option (List (String × Json)))
       (si se : Option (List String)) (swf : Int),
       lookupKey (FirecrawlClient.crawlPayload url xp ip md igs lim abl ael wh sf sh si se swf)
           "scrapeOptions" =
         some (Json.obj (FirecrawlClient.crawlScrapeOptions sf sh si se swf)) ∧
       lookupKey (FirecrawlClient.crawlScrapeOptions sf sh si se swf) "formats" =
         some (Json.arr ((pyOrList sf ["markdown"]).map Json.str)) ∧
       lookupKey (FirecrawlClient.crawlScrapeOptions sf sh si se swf) "waitFor" =
         some (Json.num swf) ∧
       (sh = none → lookupKey (FirecrawlClient.crawlScrapeOptions sf sh si se swf)
          "headers" = none) ∧
       (∀ h, sh = some h → lookupKey (FirecrawlClient.crawlScrapeOptions sf sh si se swf)
          "headers" = some (Json.obj h)) ∧
       (si = none → lookupKey (FirecrawlClient.crawlScrapeOptions sf sh si se swf)
          "includeTags" = none) ∧
       (∀ l, si = some l → lookupKey (FirecrawlClient.crawlScrapeOptions sf sh si se swf)
          "includeTags" = some (Json.arr (l.map Json.str))) ∧
       (se = none → lookupKey (FirecrawlClient.crawlScrapeOptions sf sh si se swf)
          "excludeTags" = none) ∧
       (∀ l, se = some l → lookupKey (FirecrawlClient.crawlScrapeOptions sf sh si se swf)
          "excludeTags" = some (Json.arr (l.map Json.str)))) ∧
    (∀ (url : String) (xp ip : Option (List String)) (md : Int) (igs : Bool)
       (lim : Int) (abl ael : Bool) (wh : Option String)
       (sf : Option (List String)) (sh : Option (List (String × Json)))
       (si se : Option (List String)) (swf : Int),
       lookupKey (AsyncFirecrawlClient.crawlPayload url xp ip md igs lim abl ael wh sf sh si se swf)
           "scrapeOptions" =
         some (Json.obj (AsyncFirecrawlClient.crawlScrapeOptions sf sh si se swf)) ∧
       (sh = none → lookupKey (AsyncFirecrawlClient.crawlScrapeOptions sf sh si se swf)
          "headers" = none) ∧
       (∀ h, sh = some h → lookupKey (AsyncFirecrawlClient.crawlScrapeOptions sf sh si se swf)
          "headers" = some (Json.obj h))) ∧
    lookupKey (FirecrawlClient.crawlPayload "https://example.com" none none 2 true 10 false false
        none none (some [("X-A", Json.str "1")]) none none 123) "scrapeOptions" =
      some (Json.obj
        [("formats", Json.arr [Json.str "markdown"]),
         ("waitFor", Json.num 123),
         ("headers", Json.obj [("X-A", Json.str "1")])]) ∧
    lookupKey (AsyncFirecrawlClient.crawlPayload "https://example.com" none none 2 true 10 false
        false none none (some [("X-A", Json.str "1")]) none none 123) "scrapeOptions" =
      some (Json.obj
        [("formats", Json.arr [Json.str "markdown"]),
         ("waitFor", Json.num 123),
         ("headers", Json.obj [("X-A", Json.str "1")])]) := by
  refine ⟨?_, ?_, rfl, rfl⟩
  · intro url xp ip md igs lim abl ael wh sf sh si se swf
    refine ⟨rfl, rfl, rfl, ?_, ?_, ?_, ?_, ?_, ?_⟩
    · rintro rfl; cases si <;> cases se <;> rfl
    · rintro h rfl; rfl
    · rintro rfl; cases sh <;> cases se <;> rfl
    · rintro l rfl; cases sh <;> rfl
    · rintro rfl; cases sh <;> cases si <;> rfl
    · rintro l rfl; cases sh <;> cases si <;> rfl
  · intro url xp ip md igs lim abl ael wh sf sh si se swf
    refine ⟨rfl, ?_, ?_⟩
    · rintro rfl; cases si <;> cases se <;> rfl
    · rintro h rfl; rfl

/-- C6 (witness): the theorem applied at concrete inputs. -/
theorem crawl_scrapeOptions_payload_witness :
    lookupKey (FirecrawlClient.crawlScrapeOptions none none none none 123) "headers" = none ∧
    lookupKey (FirecrawlClient.crawlScrapeOptions none (some [("X-A", Json.str "1")]) none none
        123) "headers" = some (Json.obj [("X-A", Json.str "1")]) :=
  ⟨(crawl_scrapeOptions_payload.1 "https://example.com" none none 2 true 10 false false none
      none none none none 123).2.2.2.1 rfl,
   (crawl_scrapeOptions_payload.1 "https://example.com" none none 2 true 10 false false none
      none (some [("X-A", Json.str "1")]) none none 123).2.2.2.2.1
     [("X-A", Json.str "1")] rfl⟩

/-- C7: for every nonempty base URL, a client constructed with a trailing
slash appended and one constructed without it produce identical request
URLs for all five operations, in both clients. -/
theorem trailing_slash_same_urls (b job_id : String) (h : b ≠ "") :
    ((FirecrawlClient.mkBaseUrl (b ++ "/")).map (fun base =>
        [FirecrawlClient.scrapeUrl base, FirecrawlClient.crawlUrl base,
         FirecrawlClient.crawlStatusUrl base job_id,
         FirecrawlClient.cancelCrawlUrl base job_id,
         FirecrawlClient.mapUrl base]) =
      (FirecrawlClient.mkBaseUrl b).map (fun base =>
        [FirecrawlClient.scrapeUrl base, FirecrawlClient.crawlUrl base,
         FirecrawlClient.crawlStatusUrl base job_id,
         FirecrawlClient.cancelCrawlUrl base job_id,
         FirecrawlClient.mapUrl base])) ∧
    ((AsyncFirecrawlClient.mkBaseUrl (b ++ "/")).map (fun base =>
        [AsyncFirecrawlClient.scrapeUrl base, AsyncFirecrawlClient.crawlUrl base,
         AsyncFirecrawlClient.crawlStatusUrl base job_id,
         AsyncFirecrawlClient.cancelCrawlUrl base job_id,
         AsyncFirecrawlClient.mapUrl base]) =
      (AsyncFirecrawlClient.mkBaseUrl b).map (fun base =>
        [AsyncFirecrawlClient.scrapeUrl base, AsyncFirecrawlClient.crawlUrl base,
         AsyncFirecrawlClient.crawlStatusUrl base job_id,
         AsyncFirecrawlClient.cancelCrawlUrl base job_id,
         AsyncFirecrawlClient.mapUrl base])) := by
  have hs := mkBaseUrl_append_slash b h
  constructor
  · rw [hs]
  · simp only [asyncMkBaseUrl_eq, hs]

/-- C7 (witness): the theorem applied at a concrete base URL and job id. -/
theorem trailing_slash_same_urls_witness :
    ((FirecrawlClient.mkBaseUrl ("https://api.example.com" ++ "/")).map (fun base =>
        [FirecrawlClient.scrapeUrl base, FirecrawlClient.crawlUrl base,
         FirecrawlClient.crawlStatusUrl base "abc123",
         FirecrawlClient.cancelCrawlUrl base "abc123",
         FirecrawlClient.mapUrl base]) =
      (FirecrawlClient.mkBaseUrl "https://api.example.com").map (fun base =>
        [FirecrawlClient.scrapeUrl base, FirecrawlClient.crawlUrl base,
         FirecrawlClient.crawlStatusUrl base "abc123",
         FirecrawlClient.cancelCrawlUrl base "abc123",
         FirecrawlClient.mapUrl base])) ∧
    ((AsyncFirecrawlClient.mkBaseUrl ("https://api.example.com" ++ "/")).map (fun base =>
        [AsyncFirecrawlClient.scrapeUrl base, AsyncFirecrawlClient.crawlUrl base,
         AsyncFirecrawlClient.crawlStatusUrl base "abc123",
         AsyncFirecrawlClient.cancelCrawlUrl base "abc123",
         AsyncFirecrawlClient.mapUrl base]) =
      (AsyncFirecrawlClient.mkBaseUrl "https://api.example.com").map (fun base =>
        [AsyncFirecrawlClient.scrapeUrl base, AsyncFirecrawlClient.crawlUrl base,
         AsyncFirecrawlClient.crawlStatusUrl base "abc123",
         AsyncFirecrawlClient.cancelCrawlUrl base "abc123",
         AsyncFirecrawlClient.mapUrl base])) :=
  trailing_slash_same_urls "https://api.example.com" "abc123" (by decide)

/-- C8: for both clients, `cancel_crawl` returns the boolean value of the
`success` field of the response body, and returns false rather than
failing when the body lacks a `success` key. -/
theorem cancel_crawl_success_flag :
    (∀ (fields : List (String × Json)) (b : Bool),
       lookupKey fields "success" = some (Json.bool b) →
         FirecrawlClient.cancelCrawlParse fields = Json.bool b) ∧
    (∀ fields : List (String × Json),
       lookupKey fields "success" = none →
         FirecrawlClient.cancelCrawlParse fields = Json.bool false) ∧
    (∀ (fields : List (String × Json)) (b : Bool),
       lookupKey fields "success" = some (Json.bool b) →
         AsyncFirecrawlClient.cancelCrawlParse fields = Json.bool b) ∧
    (∀ fields : List (String × Json),
       lookupKey fields "success" = none →
         AsyncFirecrawlClient.cancelCrawlParse fields = Json.bool false) := by
  refine ⟨?_, ?_, ?_, ?_⟩
  · intro fields b hf
    simp [FirecrawlClient.cancelCrawlParse, hf]
  · intro fields hf
    simp [FirecrawlClient.cancelCrawlParse, hf]
  · intro fields b hf
    simp [AsyncFirecrawlClient.cancelCrawlParse, hf]
  · intro fields hf
    simp [AsyncFirecrawlClient.cancelCrawlParse, hf]

/-- C8 (witness): the theorem applied at concrete response bodies. -/
theorem cancel_crawl_success_flag_witness :
    FirecrawlClient.cancelCrawlParse [("success", Json.bool true)] = Json.bool true ∧
    FirecrawlClient.cancelCrawlParse [] = Json.bool false :=
  ⟨cancel_crawl_success_flag.1 [("success", Json.bool true)] true rfl,
   cancel_crawl_success_flag.2.1 [] rfl⟩

/-- C9: validating a `Metadata` object carrying the required fields plus
any undeclared extra field succeeds, and the result preserves that extra
field and its value. -/
theorem metadata_extra_preserved (k : String) (v : Json)
    (hk : k ∉ metadataFieldNames) :
    ∃ m, Metadata.model_validate
        [("sourceURL", Json.str "https://example.com"),
         ("statusCode", Json.num 200), (k, v)] = some m ∧
      lookupKey m.extra k = some v ∧
      m.sourceURL = "https://example.com" ∧ m.statusCode = 200 := by
  simp only [metadataFieldNames, List.mem_cons, List.not_mem_nil, or_false] at hk
  push_neg at hk
  obtain ⟨h1, h2, h3, h4, h5, h6⟩ := hk
  have b1 : (k == "title") = false := beq_eq_false_iff_ne.mpr h1
  have b2 : (k == "description") = false := beq_eq_false_iff_ne.mpr h2
  have b3 : (k == "language") = false := beq_eq_false_iff_ne.mpr h3
  have b4 : (k == "sourceURL") = false := beq_eq_false_iff_ne.mpr h4
  have b5 : (k == "statusCode") = false := beq_eq_false_iff_ne.mpr h5
  have b6 : (k == "error") = false := beq_eq_false_iff_ne.mpr h6
  refine ⟨{ title := none, description := none, language := none,
            sourceURL := "https://example.com", statusCode := 200, error := none,
            extra := [(k, v)] }, ?_, ?_, rfl, rfl⟩
  · simp [Metadata.model_validate, parseOptStr, lookupKey, List.find?,
          b1, b2, b3, b4, b5, b6, isHttpUrl, metadataFieldNames,
          List.filter, List.contains, h1, h2, h3, h4, h5, h6]
  · simp [lookupKey, List.find?]

/-- C9 (witness): the theorem applied at the extra field `ogImage`. -/
theorem metadata_extra_preserved_witness :
    ∃ m, Metadata.model_validate
        [("sourceURL", Json.str "https://example.com"),
         ("statusCode", Json.num 200),
         ("ogImage", Json.str "https://example.com/og.png")] = some m ∧
      lookupKey m.extra "ogImage" = some (Json.str "https://example.com/og.png") ∧
      m.sourceURL = "https://example.com" ∧ m.statusCode = 200 :=
  metadata_extra_preserved "ogImage" (Json.str "https://example.com/og.png") (by decide)

/-- C10: for both clients, `scrape` with `formats=[]` and `crawl` with
`scrape_formats=[]` send `["markdown"]` as the `formats` value, not the
empty list: the default applies whenever the argument is falsy. -/
theorem falsy_formats_default_markdown :
    ∀ (url : String) (it et : Option (List String))
      (hd : Option (List (String × Json))) (wf tmo : Int)
      (es : Option (List (String × Json))) (esp ep : Option String)
      (xp ip : Option (List String)) (md : Int) (igs : Bool) (lim : Int)
      (abl ael : Bool) (wh : Option String)
      (sh : Option (List (String × Json))) (si se : Option (List String))
      (swf : Int),
      lookupKey (FirecrawlClient.scrapePayload url (some []) it et hd wf tmo es esp ep)
          "formats" = some (Json.arr [Json.str "markdown"]) ∧
      lookupKey (AsyncFirecrawlClient.scrapePayload url (some []) it et hd wf tmo es esp ep)
          "formats" = some (Json.arr [Json.str "markdown"]) ∧
      lookupKey (FirecrawlClient.crawlPayload url xp ip md igs lim abl ael wh (some [])
          sh si se swf) "scrapeOptions" =
        some (Json.obj (FirecrawlClient.crawlScrapeOptions (some []) sh si se swf)) ∧
      lookupKey (FirecrawlClient.crawlScrapeOptions (some []) sh si se swf) "formats" =
        some (Json.arr [Json.str "markdown"]) ∧
      lookupKey (AsyncFirecrawlClient.crawlPayload url xp ip md igs lim abl ael wh (some [])
          sh si se swf) "scrapeOptions" =
        some (Json.obj (AsyncFirecrawlClient.crawlScrapeOptions (some []) sh si se swf)) ∧
      lookupKey (AsyncFirecrawlClient.crawlScrapeOptions (some []) sh si se swf) "formats" =
        some (Json.arr [Json.str "markdown"]) := by
  intros
  exact ⟨rfl, rfl, rfl, rfl, rfl, rfl⟩

end SimpleCrawl
